import Mathlib

/-!
Verification of the protocol/streaming layer of the LabJack U3 DAQ node
(labjack_daq_node.cpp).  The node validates fixed-layout binary responses
for the ConfigIO / StreamConfig / StreamStart / StreamStop commands and,
on every timer tick, performs one multiplied stream read, validates each
of the concatenated StreamData packets, classifies the per-packet status
byte, extracts the channel-interleaved 16-bit samples, and publishes the
last completed scan.

Bytes are modelled as natural numbers; buffers as lists read through
List.getD (out-of-range reads default to 0).  The checksum primitives live
in u3.c, a repository file referenced by the build but not present here;
they are modelled from the spec and marked as such.  The external
calibration calls (getAinVoltCalibrated_hw130 / getAinVoltCalibrated) are
abstracted as a conversion parameter from channel index and raw code to an
opaque value type.
-/

namespace LabjackU3

/-- Number of analog channels streamed (source constant NumChannels). -/
def NumChannels : Nat := 5

/-- Samples carried in one StreamData response (source constant SamplesPerPacket). -/
def SamplesPerPacket : Nat := 25

/-- Multiplier for the StreamData receive buffer size (source constant readSizeMultiplier). -/
def readSizeMultiplier : Nat := 5

/-- Number of multiplied reads per handler invocation (source constant numReadsPerDisplay). -/
def numReadsPerDisplay : Nat := 1

/-- Size in bytes of one StreamData response for a given samples-per-packet
(source: responseSize = 14 + SamplesPerPacket * 2). -/
def respSize (spp : Nat) : Nat := 14 + spp * 2

/-- Modelled from the spec: extendedChecksum16 of u3.c (a repository file
absent from the sources given): the 16-bit sum over all bytes from offset 6
to len - 1.  The base argument renders the C pointer recBuff + m * recBuffSize. -/
def extendedChecksum16 (buf : List Nat) (base len : Nat) : Nat :=
  (((List.range (len - 6)).map fun i => buf.getD (base + 6 + i) 0).sum) % 65536

/-- Modelled from the spec: extendedChecksum8 of u3.c: an 8-bit checksum
computed over header bytes 1..5 of an extended frame, independent of payload. -/
def extendedChecksum8 (buf : List Nat) (base : Nat) : Nat :=
  (buf.getD (base + 1) 0 + buf.getD (base + 2) 0 + buf.getD (base + 3) 0 +
    buf.getD (base + 4) 0 + buf.getD (base + 5) 0) % 256

/-- Modelled from the spec: normalChecksum8 of u3.c: the sum of all frame
bytes except the checksum byte itself (byte 0), truncated to 8 bits. -/
def normalChecksum8 (buf : List Nat) (len : Nat) : Nat :=
  (((List.range (len - 1)).map fun i => buf.getD (1 + i) 0).sum) % 256

/-- Modelled from the spec: extendedChecksum of u3.c: writes the 16-bit
checksum low and high bytes into header positions 4 and 5 and then the
8-bit header checksum into byte 0. -/
def extendedChecksum (buf : List Nat) (len : Nat) : List Nat :=
  let c16 := extendedChecksum16 buf 0 len
  let b1 := (buf.set 4 (c16 % 256)).set 5 (c16 / 256 % 256)
  b1.set 0 (extendedChecksum8 b1 0)

/-- Distinct failure conditions detected by the validation code of the
command/response operations, one constructor per early-return path of the
source (each identified there only by its log message). -/
inductive CmdFail where
  | writeFailed
  | shortWrite
  | readFailed
  | shortRead
  | badChecksum16MSB
  | badChecksum16LSB
  | badChecksum8
  | wrongCommandBytes
  | errorcode (code : Nat)
  | timerCounterConfigNotSet
  | fioAnalogNotSet
  | eioAnalogNotSet
deriving DecidableEq, Repr

/-- The abort conditions of one polling cycle of LabjackNode::onReadAndPubTimer,
one constructor per early-return path of the source. -/
inductive StreamError where
  | shortRead (expected got : Nat)
  | badChecksum16MSB
  | badChecksum16LSB
  | badChecksum8
  | wrongCommandBytes
  | deviceError (code : Nat)
deriving DecidableEq, Repr

/-- Informational events printed by the stream handler: overflow detection
(status byte 59 while auto-recovery was off) and the auto-recovery report
(status byte 60, with its decoded dropped-scans count). -/
inductive StreamEvent where
  | overflowDetected (packet : Nat)
  | recoveryReport (packet : Nat) (droppedScans : Nat)
deriving DecidableEq, Repr

/-- The mutable locals of one polling cycle: the channel/scan counters, the
packet counter, the auto-recovery flag, the voltages 2D array (None where
never written), plus traces of the writes performed and events reported. -/
structure ScanState (V : Type) where
  currChannel : Nat
  scanNumber : Nat
  totalPackets : Nat
  autoRecoveryOn : Bool
  voltages : Nat → Nat → Option V
  writes : List (Nat × Nat)
  events : List StreamEvent

/-- The state at the top of onReadAndPubTimer: counters zero, auto-recovery
off, voltages unwritten. -/
def initState (V : Type) : ScanState V :=
  { currChannel := 0, scanNumber := 0, totalPackets := 0, autoRecoveryOn := false,
    voltages := fun _ _ => none, writes := [], events := [] }

/-- The 16-bit sample code assembled from the byte pair at offset k of a
packet, low byte first (source: voltageBytes = recBuff[m*recBuffSize+k] +
recBuff[m*recBuffSize+k+1]*256, computed in uint16). -/
def voltageBytesAt (buf : List Nat) (base k : Nat) : Nat :=
  (buf.getD (base + k) 0 + buf.getD (base + k + 1) 0 * 256) % 65536

/-- The raw samples of one packet, in payload order: byte pairs at offsets
12, 14, ..., 12 + 2*spp - 2 (source: the k loop). -/
def packetSamples (spp : Nat) (buf : List Nat) (base : Nat) : List Nat :=
  (List.range spp).map fun i => voltageBytesAt buf base (12 + 2 * i)

/-- One iteration of the sample-extraction loop: store the converted value at
voltages[scanNumber][currChannel], then advance currChannel, wrapping to 0 and
advancing scanNumber when it reaches the channel count.  The convert argument
abstracts the external calibration call of u3.c. -/
def consumeSample {V : Type} (nc : Nat) (convert : Nat → Nat → V)
    (st : ScanState V) (raw : Nat) : ScanState V :=
  let st1 := { st with
    voltages := fun s c =>
      if s = st.scanNumber ∧ c = st.currChannel then some (convert st.currChannel raw)
      else st.voltages s c,
    writes := st.writes ++ [(st.scanNumber, st.currChannel)] }
  if st.currChannel + 1 ≥ nc then
    { st1 with currChannel := 0, scanNumber := st.scanNumber + 1 }
  else
    { st1 with currChannel := st.currChannel + 1 }

/-- The whole sample-extraction loop of one packet. -/
def consumeSamples {V : Type} (nc : Nat) (convert : Nat → Nat → V)
    (samples : List Nat) (st : ScanState V) : ScanState V :=
  samples.foldl (consumeSample nc convert) st

/-- Validation and extraction for the m-th StreamData response inside the
multiplied receive buffer, mirroring the body of the m loop of
LabjackNode::onReadAndPubTimer: checksum16 (MSB then LSB), checksum8, echoed
command bytes, classification of the status byte at offset 11, then the
sample-extraction loop.  Note that the device-error path reports
recBuff[11], the status byte of the first packet in the buffer, exactly as
the source line does, not the m-th packet's own status byte. -/
def processPacket {V : Type} (nc spp : Nat) (convert : Nat → Nat → V)
    (buf : List Nat) (m : Nat) (st : ScanState V) :
    Except StreamError (ScanState V) :=
  let rbs := 14 + spp * 2
  let base := m * rbs
  let st := { st with totalPackets := st.totalPackets + 1 }
  let checksumTotal := extendedChecksum16 buf base rbs
  if checksumTotal / 256 % 256 ≠ buf.getD (base + 5) 0 then .error .badChecksum16MSB
  else if checksumTotal % 256 ≠ buf.getD (base + 4) 0 then .error .badChecksum16LSB
  else if extendedChecksum8 buf base ≠ buf.getD base 0 then .error .badChecksum8
  else if buf.getD (base + 1) 0 ≠ 0xF9 ∨ buf.getD (base + 2) 0 ≠ 4 + spp ∨
      buf.getD (base + 3) 0 ≠ 0xC0 then .error .wrongCommandBytes
  else if buf.getD (base + 11) 0 = 59 then
    let st2 :=
      if st.autoRecoveryOn then st
      else { st with autoRecoveryOn := true,
                     events := st.events ++ [.overflowDetected st.totalPackets] }
    .ok (consumeSamples nc convert (packetSamples spp buf base) st2)
  else if buf.getD (base + 11) 0 = 60 then
    let st2 := { st with autoRecoveryOn := false,
                         events := st.events ++
                           [.recoveryReport st.totalPackets
                             (buf.getD (base + 6) 0 + buf.getD (base + 7) 0 * 256)] }
    .ok (consumeSamples nc convert (packetSamples spp buf base) st2)
  else if buf.getD (base + 11) 0 ≠ 0 then .error (.deviceError (buf.getD 11 0))
  else .ok (consumeSamples nc convert (packetSamples spp buf base) st)

/-- The m loop of onReadAndPubTimer over a list of packet indices, aborting
the whole read at the first packet that fails validation. -/
def processPackets {V : Type} (nc spp : Nat) (convert : Nat → Nat → V)
    (buf : List Nat) : List Nat → ScanState V → Except StreamError (ScanState V)
  | [], st => .ok st
  | m :: ms, st =>
    match processPacket nc spp convert buf m st with
    | .error e => .error e
    | .ok st1 => processPackets nc spp convert buf ms st1

/-- One polling cycle of LabjackNode::onReadAndPubTimer with
numReadsPerDisplay = 1: one multiplied stream read delivering recChars bytes
in recBuff, validation and extraction of the mult concatenated packets, and
on success the published message: one entry per channel taken from row
scanNumber - 1 of the voltages array. -/
def onReadAndPubTimer {V : Type} (nc spp mult : Nat) (convert : Nat → Nat → V)
    (recChars : Nat) (recBuff : List Nat) :
    Except StreamError (ScanState V × List (Option V)) :=
  if recChars < respSize spp * mult then
    .error (.shortRead (respSize spp * mult) recChars)
  else
    match processPackets nc spp convert recBuff (List.range mult) (initState V) with
    | .error e => .error e
    | .ok st =>
      .ok (st, (List.range nc).map fun k => st.voltages (st.scanNumber - 1) k)

/-- The status byte of the m-th packet of a multiplied stream read (offset 11
within that packet). -/
def statusOf (spp : Nat) (buf : List Nat) (m : Nat) : Nat :=
  buf.getD (m * (14 + spp * 2) + 11) 0

/-- The u-th raw sample of the whole multiplied read: sample u % spp of
packet u / spp. -/
def cycleSample (spp : Nat) (buf : List Nat) (u : Nat) : Nat :=
  voltageBytesAt buf (u / spp * (14 + spp * 2)) (12 + 2 * (u % spp))

/-- How one packet's status byte drives the auto-recovery flag in the source:
59 switches it on, 60 switches it off, anything else leaves it unchanged. -/
def stepRecovery (flag : Bool) (status : Nat) : Bool :=
  if status = 59 then true else if status = 60 then false else flag

/-- Whether the stream is running on the device, as toggled by the
StreamStart/StreamStop commands.  The timer handler itself never sends
stream-control commands. -/
structure DeviceStreamState where
  running : Bool
deriving DecidableEq, Repr

/-- The timer handler as seen from outside: the device stream state passes
through untouched (the handler body sends no stream-control command), and the
list of messages published this cycle, which is empty on every early-return
error path and a singleton on success. -/
def onTimerHandler {V : Type} (nc spp mult : Nat) (convert : Nat → Nat → V)
    (dev : DeviceStreamState) (recChars : Nat) (recBuff : List Nat) :
    DeviceStreamState × Option StreamError × List (List (Option V)) :=
  match onReadAndPubTimer nc spp mult convert recChars recBuff with
  | .error e => (dev, some e, [])
  | .ok (_, out) => (dev, none, [out])

/-- The validation chain of ConfigIO_example on its 12-byte response,
returning the first failing check (identified in the source by its log
message), or none on success.  sendChars and recChars are the byte counts
returned by the transport write and read. -/
def ConfigIO_check (sendChars recChars : Nat) (recBuff : List Nat) : Option CmdFail :=
  if sendChars < 12 then some (if sendChars = 0 then .writeFailed else .shortWrite)
  else if recChars < 12 then some (if recChars = 0 then .readFailed else .shortRead)
  else
    let checksumTotal := extendedChecksum16 recBuff 0 12
    if checksumTotal / 256 % 256 ≠ recBuff.getD 5 0 then some .badChecksum16MSB
    else if checksumTotal % 256 ≠ recBuff.getD 4 0 then some .badChecksum16LSB
    else if extendedChecksum8 recBuff 0 ≠ recBuff.getD 0 0 then some .badChecksum8
    else if recBuff.getD 1 0 ≠ 0xF8 ∨ recBuff.getD 2 0 ≠ 0x03 ∨ recBuff.getD 3 0 ≠ 0x0B then
      some .wrongCommandBytes
    else if recBuff.getD 6 0 ≠ 0 then some (.errorcode (recBuff.getD 6 0))
    else if recBuff.getD 8 0 ≠ 64 then some .timerCounterConfigNotSet
    else if recBuff.getD 10 0 ≠ 255 ∧ recBuff.getD 10 0 ≠ 0x0F then some .fioAnalogNotSet
    else if recBuff.getD 11 0 ≠ 255 then some .eioAnalogNotSet
    else none

/-- The caller-visible return value of ConfigIO_example: 0 on success and -1
on every failure path alike. -/
def ConfigIO_ret (sendChars recChars : Nat) (recBuff : List Nat) : Int :=
  match ConfigIO_check sendChars recChars recBuff with
  | some _ => -1
  | none => 0

/-- The DAC1-enabled flag ConfigIO_example stores through its out-parameter
on success (recBuff[9]). -/
def ConfigIO_dac1 (sendChars recChars : Nat) (recBuff : List Nat) : Option Nat :=
  match ConfigIO_check sendChars recChars recBuff with
  | some _ => none
  | none => some (recBuff.getD 9 0)

/-- The validation chain of StreamConfig_example on its 8-byte response. -/
def StreamConfig_check (sendChars recChars : Nat) (recBuff : List Nat) : Option CmdFail :=
  if sendChars < 12 + NumChannels * 2 then
    some (if sendChars = 0 then .writeFailed else .shortWrite)
  else if recChars < 8 then some (if recChars = 0 then .readFailed else .shortRead)
  else
    let checksumTotal := extendedChecksum16 recBuff 0 8
    if checksumTotal / 256 % 256 ≠ recBuff.getD 5 0 then some .badChecksum16MSB
    else if checksumTotal % 256 ≠ recBuff.getD 4 0 then some .badChecksum16LSB
    else if extendedChecksum8 recBuff 0 ≠ recBuff.getD 0 0 then some .badChecksum8
    else if recBuff.getD 1 0 ≠ 0xF8 ∨ recBuff.getD 2 0 ≠ 0x01 ∨
        recBuff.getD 3 0 ≠ 0x11 ∨ recBuff.getD 7 0 ≠ 0x00 then
      some .wrongCommandBytes
    else if recBuff.getD 6 0 ≠ 0 then some (.errorcode (recBuff.getD 6 0))
    else none

/-- The caller-visible return value of StreamConfig_example: 0 on success and
-1 on every failure path alike. -/
def StreamConfig_ret (sendChars recChars : Nat) (recBuff : List Nat) : Int :=
  match StreamConfig_check sendChars recChars recBuff with
  | some _ => -1
  | none => 0

/-- The validation chain of StreamStart on its 4-byte response. -/
def StreamStart_check (sendChars recChars : Nat) (recBuff : List Nat) : Option CmdFail :=
  if sendChars < 2 then some (if sendChars = 0 then .writeFailed else .shortWrite)
  else if recChars < 4 then some (if recChars = 0 then .readFailed else .shortRead)
  else if normalChecksum8 recBuff 4 ≠ recBuff.getD 0 0 then some .badChecksum8
  else if recBuff.getD 1 0 ≠ 0xA9 ∨ recBuff.getD 3 0 ≠ 0x00 then some .wrongCommandBytes
  else if recBuff.getD 2 0 ≠ 0 then some (.errorcode (recBuff.getD 2 0))
  else none

/-- The caller-visible return value of StreamStart: 0 on success and -1 on
every failure path alike. -/
def StreamStart_ret (sendChars recChars : Nat) (recBuff : List Nat) : Int :=
  match StreamStart_check sendChars recChars recBuff with
  | some _ => -1
  | none => 0

/-- The validation chain of StreamStop on its 4-byte response. -/
def StreamStop_check (sendChars recChars : Nat) (recBuff : List Nat) : Option CmdFail :=
  if sendChars < 2 then some (if sendChars = 0 then .writeFailed else .shortWrite)
  else if recChars < 4 then some (if recChars = 0 then .readFailed else .shortRead)
  else if normalChecksum8 recBuff 4 ≠ recBuff.getD 0 0 then some .badChecksum8
  else if recBuff.getD 1 0 ≠ 0xB1 ∨ recBuff.getD 3 0 ≠ 0x00 then some .wrongCommandBytes
  else if recBuff.getD 2 0 ≠ 0 then some (.errorcode (recBuff.getD 2 0))
  else none

/-- The caller-visible return value of StreamStop: 0 on success and -1 on
every failure path alike. -/
def StreamStop_ret (sendChars recChars : Nat) (recBuff : List Nat) : Int :=
  match StreamStop_check sendChars recChars recBuff with
  | some _ => -1
  | none => 0

/-- Whether a given StreamStop failure produces a log message in the source:
every path logs except the device-errorcode path, whose printf is compiled
out there. -/
def StreamStop_logs : CmdFail → Bool
  | .errorcode _ => false
  | _ => true

/-- A synthetic StreamData response with the given status byte, bytes 6 and 7,
and payload (2*spp bytes), both checksums filled in by extendedChecksum. -/
def mkStreamPacket (spp status b6 b7 : Nat) (payload : List Nat) : List Nat :=
  extendedChecksum
    ([0, 0xF9, 4 + spp, 0xC0, 0, 0, b6, b7, 0, 0, 0, status] ++ payload ++ [0, 0])
    (14 + spp * 2)

/-- A synthetic valid ConfigIO response echoing the requested configuration. -/
def configIORespGood : List Nat :=
  extendedChecksum [0, 0xF8, 0x03, 0x0B, 0, 0, 0, 0, 64, 0, 255, 255] 12

/-- The valid ConfigIO response with its checksum8 byte corrupted. -/
def configIORespBad8 : List Nat :=
  configIORespGood.set 0 ((configIORespGood.getD 0 0 + 1) % 256)

/-- A synthetic ConfigIO response carrying device error code 7 with correct
checksums. -/
def configIORespErr7 : List Nat :=
  extendedChecksum [0, 0xF8, 0x03, 0x0B, 0, 0, 7, 0, 64, 0, 255, 255] 12

/-- A 50-byte payload whose i-th sample decodes to 2*i + 256*(2*i+1). -/
def c1payload : List Nat := (List.range 50).map fun i => i % 256

/-- The stream buffer for the device-error report scenario: a valid status-0
packet followed by a packet with device error status byte 5. -/
def c2buf : List Nat :=
  mkStreamPacket 25 0 0 0 (List.replicate 50 0) ++
    mkStreamPacket 25 5 0 0 (List.replicate 50 0)

/-- A synthetic valid 64-byte StreamData packet with status 0 and the simple
payload above. -/
def c1pkt : List Nat := mkStreamPacket 25 0 0 0 c1payload

/-- A synthetic valid status-0 packet with all-zero payload. -/
def pkt0 : List Nat := mkStreamPacket 25 0 0 0 (List.replicate 50 0)

/-- A synthetic valid packet reporting buffer overflow (status byte 59). -/
def pkt59 : List Nat := mkStreamPacket 25 59 0 0 (List.replicate 50 0)

/-- A synthetic valid packet reporting an auto-recovery report (status byte
60) with dropped-scans bytes 3 and 1, decoding to 259. -/
def pkt60 : List Nat := mkStreamPacket 25 60 3 1 (List.replicate 50 0)

/-- A full multiplied read of five valid status-0 packets. -/
def c10buf : List Nat := pkt0 ++ pkt0 ++ pkt0 ++ pkt0 ++ pkt0

/-- A full multiplied read whose packets carry statuses 59, 60, 0, 0, 0. -/
def c9buf : List Nat := pkt59 ++ pkt60 ++ pkt0 ++ pkt0 ++ pkt0

/-- A synthetic valid packet for a 3-samples-per-packet configuration, with
payload samples 10, 20, 30. -/
def c5pkt : List Nat := mkStreamPacket 3 0 0 0 [10, 0, 20, 0, 30, 0]

/-- Whether a polling-cycle result is a success. -/
def cycleOk {V : Type} (r : Except StreamError (ScanState V × List (Option V))) : Bool :=
  match r with
  | .ok _ => true
  | .error _ => false

theorem scanPos_inj (nc s c t : Nat) (hnc : 0 < nc) (hc : c < nc)
    (h : s * nc + c = t) : s = t / nc ∧ c = t % nc := by
  subst h
  rw [Nat.mul_comm s nc]
  constructor
  · rw [Nat.mul_add_div hnc, Nat.div_eq_of_lt hc, Nat.add_zero]
  · rw [Nat.mul_add_mod, Nat.mod_eq_of_lt hc]

theorem consumeSample_spec {V : Type} (nc : Nat) (hnc : 0 < nc) (convert : Nat → Nat → V)
    (st : ScanState V) (t raw : Nat)
    (hch : st.currChannel = t % nc) (hsc : st.scanNumber = t / nc) :
    (consumeSample nc convert st raw).currChannel = (t + 1) % nc ∧
    (consumeSample nc convert st raw).scanNumber = (t + 1) / nc ∧
    (consumeSample nc convert st raw).totalPackets = st.totalPackets ∧
    (consumeSample nc convert st raw).autoRecoveryOn = st.autoRecoveryOn ∧
    (consumeSample nc convert st raw).events = st.events ∧
    (consumeSample nc convert st raw).writes = st.writes ++ [(t / nc, t % nc)] ∧
    ∀ s c, (consumeSample nc convert st raw).voltages s c =
      if s = t / nc ∧ c = t % nc then some (convert (t % nc) raw)
      else st.voltages s c := by
  have hmlt : t % nc < nc := Nat.mod_lt _ hnc
  have hdm : nc * (t / nc) + t % nc = t := Nat.div_add_mod t nc
  unfold consumeSample
  rcases Nat.lt_or_ge (st.currChannel + 1) nc with hw | hw
  · rw [if_neg (by omega)]
    have ht1 : t + 1 = nc * (t / nc) + (t % nc + 1) := by omega
    have hlt : t % nc + 1 < nc := by omega
    have hmod : (t + 1) % nc = t % nc + 1 := by
      rw [ht1, Nat.mul_add_mod, Nat.mod_eq_of_lt hlt]
    have hdiv : (t + 1) / nc = t / nc := by
      rw [ht1, Nat.mul_add_div hnc, Nat.div_eq_of_lt hlt, Nat.add_zero]
    refine ⟨by simp [hmod, hch], by simp [hdiv, hsc], rfl, rfl, rfl,
      by simp [hch, hsc], ?_⟩
    intro s c
    simp only [hch, hsc]
  · have heq : t % nc + 1 = nc := by omega
    rw [if_pos (by omega)]
    have ht1 : t + 1 = nc * (t / nc + 1) := by rw [Nat.mul_succ]; omega
    have hmod : (t + 1) % nc = 0 := by rw [ht1]; exact Nat.mul_mod_right nc _
    have hdiv : (t + 1) / nc = t / nc + 1 := by
      rw [ht1]; exact Nat.mul_div_cancel_left _ hnc
    refine ⟨by simp [hmod], by simp [hdiv, hsc], rfl, rfl, rfl,
      by simp [hch, hsc], ?_⟩
    intro s c
    simp only [hch, hsc]

theorem consumeSamples_spec {V : Type} (nc : Nat) (hnc : 0 < nc)
    (convert : Nat → Nat → V) (l : List Nat) :
    ∀ (st : ScanState V) (t : Nat),
      st.currChannel = t % nc → st.scanNumber = t / nc →
      (consumeSamples nc convert l st).currChannel = (t + l.length) % nc ∧
      (consumeSamples nc convert l st).scanNumber = (t + l.length) / nc ∧
      (consumeSamples nc convert l st).totalPackets = st.totalPackets ∧
      (consumeSamples nc convert l st).autoRecoveryOn = st.autoRecoveryOn ∧
      (consumeSamples nc convert l st).events = st.events ∧
      (consumeSamples nc convert l st).writes =
        st.writes ++ (List.range l.length).map (fun i => ((t + i) / nc, (t + i) % nc)) ∧
      ∀ s c, (consumeSamples nc convert l st).voltages s c =
        if c < nc ∧ t ≤ s * nc + c ∧ s * nc + c < t + l.length then
          some (convert c (l.getD (s * nc + c - t) 0))
        else st.voltages s c := by
  induction l with
  | nil =>
    intro st t hch hsc
    refine ⟨by simpa using hch, by simpa using hsc, rfl, rfl, rfl,
      by simp [consumeSamples], ?_⟩
    intro s c
    rw [if_neg]
    · rfl
    · rintro ⟨-, h1, h2⟩
      simp only [List.length_nil, Nat.add_zero] at h2
      omega
  | cons r rs ih =>
    intro st t hch hsc
    have hstep := consumeSample_spec nc hnc convert st t r hch hsc
    have ih' := ih (consumeSample nc convert st r) (t + 1) hstep.1 hstep.2.1
    have hunf : consumeSamples nc convert (r :: rs) st =
        consumeSamples nc convert rs (consumeSample nc convert st r) := rfl
    rw [hunf]
    have hlen : t + (r :: rs).length = t + 1 + rs.length := by
      simp [List.length_cons]; omega
    have hmlt : t % nc < nc := Nat.mod_lt _ hnc
    have hdm : nc * (t / nc) + t % nc = t := Nat.div_add_mod t nc
    have hdm' : t / nc * nc + t % nc = t := Nat.div_add_mod' t nc
    refine ⟨by rw [ih'.1, hlen], by rw [ih'.2.1, hlen], ?_, ?_, ?_, ?_, ?_⟩
    · rw [ih'.2.2.1, hstep.2.2.1]
    · rw [ih'.2.2.2.1, hstep.2.2.2.1]
    · rw [ih'.2.2.2.2.1, hstep.2.2.2.2.1]
    · rw [ih'.2.2.2.2.2.1, hstep.2.2.2.2.2.1, List.append_assoc]
      congr 1
      rw [List.length_cons, List.range_succ_eq_map, List.map_cons, List.map_map,
        List.singleton_append]
      refine congrArg₂ List.cons (by simp) ?_
      refine List.map_congr_left ?_
      intro i _
      simp only [Function.comp_apply, Nat.succ_eq_add_one]
      have ht : t + 1 + i = t + (i + 1) := by omega
      rw [ht]
    · intro s c
      rw [ih'.2.2.2.2.2.2 s c, hstep.2.2.2.2.2.2 s c, List.length_cons]
      by_cases hA : c < nc
      · by_cases h0 : s * nc + c = t
        · have hst : s = t / nc ∧ c = t % nc := scanPos_inj nc s c t hnc hA h0
          rw [if_neg (by omega), if_pos hst, if_pos ⟨hA, by omega, by omega⟩]
          have h00 : s * nc + c - t = 0 := by omega
          rw [h00, hst.2]
          simp
        · by_cases h1 : t ≤ s * nc + c
          · by_cases h2 : s * nc + c < t + 1 + rs.length
            · rw [if_pos ⟨hA, by omega, h2⟩, if_pos ⟨hA, h1, by omega⟩]
              have hsucc : s * nc + c - t = (s * nc + c - (t + 1)) + 1 := by omega
              rw [hsucc, List.getD_cons_succ]
            · rw [if_neg (by omega), if_neg, if_neg (by omega)]
              rintro ⟨rfl, rfl⟩
              omega
          · rw [if_neg (by omega), if_neg, if_neg (by omega)]
            rintro ⟨rfl, rfl⟩
            omega
      · rw [if_neg (by omega), if_neg, if_neg (by omega)]
        rintro ⟨rfl, rfl⟩
        omega

theorem consumeSamples_const {V : Type} (nc : Nat) (convert : Nat → Nat → V)
    (l : List Nat) : ∀ st : ScanState V,
    (consumeSamples nc convert l st).totalPackets = st.totalPackets ∧
    (consumeSamples nc convert l st).autoRecoveryOn = st.autoRecoveryOn ∧
    (consumeSamples nc convert l st).events = st.events := by
  induction l with
  | nil => intro st; exact ⟨rfl, rfl, rfl⟩
  | cons r rs ih =>
    intro st
    have hunf : consumeSamples nc convert (r :: rs) st =
        consumeSamples nc convert rs (consumeSample nc convert st r) := rfl
    rw [hunf]
    have h1 := ih (consumeSample nc convert st r)
    have h2 : (consumeSample nc convert st r).totalPackets = st.totalPackets ∧
        (consumeSample nc convert st r).autoRecoveryOn = st.autoRecoveryOn ∧
        (consumeSample nc convert st r).events = st.events := by
      unfold consumeSample
      split <;> exact ⟨rfl, rfl, rfl⟩
    exact ⟨h1.1.trans h2.1, h1.2.1.trans h2.2.1, h1.2.2.trans h2.2.2⟩

theorem getD_map_range {α : Type} (f : Nat → α) (n i : Nat) (d : α) (h : i < n) :
    ((List.range n).map f).getD i d = f i := by
  rw [List.getD_eq_getElem?_getD, List.getElem?_map, List.getElem?_range h]
  rfl

theorem processPacket_ok_inv {V : Type} (nc spp : Nat) (convert : Nat → Nat → V)
    (buf : List Nat) (m : Nat) (st st' : ScanState V)
    (h : processPacket nc spp convert buf m st = .ok st') :
    ∃ st2 : ScanState V,
      st' = consumeSamples nc convert (packetSamples spp buf (m * (14 + spp * 2))) st2 ∧
      st2.currChannel = st.currChannel ∧ st2.scanNumber = st.scanNumber ∧
      st2.writes = st.writes ∧ st2.voltages = st.voltages := by
  simp only [processPacket] at h
  repeat' split at h
  all_goals first
    | exact Except.noConfusion h
    | (injection h with h; exact ⟨_, h.symm, rfl, rfl, rfl, rfl⟩)

theorem processPacket_ok_flag {V : Type} (nc spp : Nat) (convert : Nat → Nat → V)
    (buf : List Nat) (m : Nat) (st st' : ScanState V)
    (h : processPacket nc spp convert buf m st = .ok st') :
    st'.autoRecoveryOn = stepRecovery st.autoRecoveryOn (statusOf spp buf m) ∧
    st'.totalPackets = st.totalPackets + 1 := by
  simp only [processPacket] at h
  repeat' split at h
  all_goals first
    | exact Except.noConfusion h
    | (injection h with h
       subst h
       refine ⟨?_, ?_⟩
       · rw [(consumeSamples_const nc convert _ _).2.1]
         simp only [stepRecovery, statusOf]
         simp_all
       · rw [(consumeSamples_const nc convert _ _).1])

theorem processPackets_flag {V : Type} (nc spp : Nat) (convert : Nat → Nat → V)
    (buf : List Nat) : ∀ (ms : List Nat) (st st' : ScanState V),
    processPackets nc spp convert buf ms st = .ok st' →
    st'.autoRecoveryOn =
      ms.foldl (fun f m => stepRecovery f (statusOf spp buf m)) st.autoRecoveryOn := by
  intro ms
  induction ms with
  | nil =>
    intro st st' h
    injection h with h
    subst h
    rfl
  | cons m ms ih =>
    intro st st' h
    simp only [processPackets] at h
    cases hp : processPacket nc spp convert buf m st with
    | error e => rw [hp] at h; exact Except.noConfusion h
    | ok st1 =>
      rw [hp] at h
      rw [List.foldl_cons, ← (processPacket_ok_flag nc spp convert buf m st st1 hp).1]
      exact ih st1 st' h

theorem processPackets_range'_spec {V : Type} (nc spp : Nat) (hnc : 0 < nc)
    (convert : Nat → Nat → V) (buf : List Nat) :
    ∀ (len a : Nat) (st st' : ScanState V),
      st.currChannel = a * spp % nc → st.scanNumber = a * spp / nc →
      st.writes = (List.range (a * spp)).map (fun u => (u / nc, u % nc)) →
      (∀ s c, st.voltages s c = if c < nc ∧ s * nc + c < a * spp then
          some (convert c (cycleSample spp buf (s * nc + c))) else none) →
      processPackets nc spp convert buf (List.range' a len) st = .ok st' →
      st'.currChannel = (a + len) * spp % nc ∧
      st'.scanNumber = (a + len) * spp / nc ∧
      st'.writes = (List.range ((a + len) * spp)).map (fun u => (u / nc, u % nc)) ∧
      ∀ s c, st'.voltages s c = if c < nc ∧ s * nc + c < (a + len) * spp then
          some (convert c (cycleSample spp buf (s * nc + c))) else none := by
  intro len
  induction len with
  | zero =>
    intro a st st' hch hsc hw hv h
    have h0 : List.range' a 0 = [] := rfl
    rw [h0] at h
    injection h with h
    subst h
    simpa using ⟨hch, hsc, hw, hv⟩
  | succ len ih =>
    intro a st st' hch hsc hw hv h
    rw [List.range'_succ] at h
    simp only [processPackets] at h
    cases hp : processPacket nc spp convert buf a st with
    | error e => rw [hp] at h; exact Except.noConfusion h
    | ok st1 =>
      rw [hp] at h
      obtain ⟨st2, heq, hch2, hsc2, hw2, hv2⟩ :=
        processPacket_ok_inv nc spp convert buf a st st1 hp
      have hspec := consumeSamples_spec nc hnc convert
        (packetSamples spp buf (a * (14 + spp * 2))) st2 (a * spp)
        (hch2.trans hch) (hsc2.trans hsc)
      have hlen : (packetSamples spp buf (a * (14 + spp * 2))).length = spp := by
        simp [packetSamples]
      rw [hlen] at hspec
      have hmul : (a + 1) * spp = a * spp + spp := Nat.succ_mul a spp
      have hch1 : st1.currChannel = (a + 1) * spp % nc := by
        rw [heq, hspec.1, hmul]
      have hsc1 : st1.scanNumber = (a + 1) * spp / nc := by
        rw [heq, hspec.2.1, hmul]
      have hw1 : st1.writes =
          (List.range ((a + 1) * spp)).map (fun u => (u / nc, u % nc)) := by
        rw [heq, hspec.2.2.2.2.2.1, hw2, hw, hmul, List.range_add, List.map_append,
          List.map_map]
        congr 1
      have hv1 : ∀ s c, st1.voltages s c =
          if c < nc ∧ s * nc + c < (a + 1) * spp then
            some (convert c (cycleSample spp buf (s * nc + c))) else none := by
        intro s c
        rw [heq, hspec.2.2.2.2.2.2 s c, hv2, hv s c, hmul]
        by_cases hA : c < nc
        · rcases Nat.lt_or_ge (s * nc + c) (a * spp) with hu1 | hu1
          · rw [if_neg (by omega), if_pos ⟨hA, hu1⟩, if_pos ⟨hA, by omega⟩]
          · rcases Nat.lt_or_ge (s * nc + c) (a * spp + spp) with hu2 | hu2
            · rw [if_pos ⟨hA, hu1, hu2⟩, if_pos ⟨hA, hu2⟩]
              have hi : s * nc + c - a * spp < spp := by omega
              have hgd : (packetSamples spp buf (a * (14 + spp * 2))).getD
                  (s * nc + c - a * spp) 0 =
                  voltageBytesAt buf (a * (14 + spp * 2))
                    (12 + 2 * (s * nc + c - a * spp)) := by
                unfold packetSamples
                exact getD_map_range _ spp _ 0 hi
              have hdm := scanPos_inj spp a (s * nc + c - a * spp) (s * nc + c)
                (by omega) hi (by omega)
              rw [hgd]
              unfold cycleSample
              rw [← hdm.1, ← hdm.2]
            · rw [if_neg (by omega), if_neg (by omega), if_neg (by omega)]
        · rw [if_neg (by omega), if_neg (by omega), if_neg (by omega)]
      have hres := ih (a + 1) st1 st' hch1 hsc1 hw1 hv1 h
      have haa : a + (len + 1) = a + 1 + len := by omega
      rw [haa]
      exact hres

theorem processPackets_range_spec {V : Type} (nc spp mult : Nat) (hnc : 0 < nc)
    (convert : Nat → Nat → V) (buf : List Nat) (st' : ScanState V)
    (h : processPackets nc spp convert buf (List.range mult) (initState V) = .ok st') :
    st'.currChannel = mult * spp % nc ∧
    st'.scanNumber = mult * spp / nc ∧
    st'.writes = (List.range (mult * spp)).map (fun u => (u / nc, u % nc)) ∧
    ∀ s c, st'.voltages s c = if c < nc ∧ s * nc + c < mult * spp then
        some (convert c (cycleSample spp buf (s * nc + c))) else none := by
  rw [List.range_eq_range'] at h
  have hv0 : ∀ s c, (initState V).voltages s c =
      if c < nc ∧ s * nc + c < 0 * spp then
        some (convert c (cycleSample spp buf (s * nc + c))) else none := by
    intro s c
    rw [if_neg]
    · rfl
    · rintro ⟨-, h2⟩
      omega
  have hres := processPackets_range'_spec nc spp hnc convert buf mult 0
    (initState V) st' (by simp [initState]) (by simp [initState])
    (by simp [initState]) hv0 h
  simpa using hres

theorem onReadAndPubTimer_ok_inv {V : Type} (nc spp mult : Nat)
    (convert : Nat → Nat → V) (recChars : Nat) (buf : List Nat)
    (st : ScanState V) (out : List (Option V))
    (h : onReadAndPubTimer nc spp mult convert recChars buf = .ok (st, out)) :
    processPackets nc spp convert buf (List.range mult) (initState V) = .ok st ∧
    out = (List.range nc).map (fun k => st.voltages (st.scanNumber - 1) k) ∧
    ¬ recChars < respSize spp * mult := by
  unfold onReadAndPubTimer at h
  split at h
  next hrc => exact Except.noConfusion h
  next hrc =>
    cases hp : processPackets nc spp convert buf (List.range mult) (initState V) with
    | error e => rw [hp] at h; exact Except.noConfusion h
    | ok st0 =>
      rw [hp] at h
      injection h with h
      injection h with h1 h2
      subst h1
      subst h2
      exact ⟨rfl, rfl, hrc⟩

theorem onReadAndPubTimer_short {V : Type} (nc spp mult : Nat)
    (convert : Nat → Nat → V) (recChars : Nat) (buf : List Nat)
    (hlt : recChars < respSize spp * mult) :
    onReadAndPubTimer nc spp mult convert recChars buf =
      .error (.shortRead (respSize spp * mult) recChars) := by
  unfold onReadAndPubTimer
  rw [if_pos hlt]

/-- Claim C5: for every successful polling cycle, the emitted output is the
last fully completed scan in the scan buffer, the row at index scanNumber - 1,
with exactly one calibrated value per channel; the final scanNumber is the
floor division of the total consumed sample count by the channel count, so a
partially filled scan at the tail is not counted and the output row never
reads it. -/
theorem C5_last_completed_scan {V : Type} (nc spp mult : Nat) (hnc : 0 < nc)
    (convert : Nat → Nat → V) (recChars : Nat) (buf : List Nat)
    (st : ScanState V) (out : List (Option V))
    (h : onReadAndPubTimer nc spp mult convert recChars buf = .ok (st, out)) :
    st.scanNumber = mult * spp / nc ∧
    out = (List.range nc).map (fun k => st.voltages (st.scanNumber - 1) k) ∧
    out.length = nc ∧
    st.scanNumber * nc ≤ mult * spp ∧
    (nc ≤ mult * spp → ∀ k, k < nc → st.voltages (st.scanNumber - 1) k =
      some (convert k (cycleSample spp buf ((mult * spp / nc - 1) * nc + k)))) := by
  obtain ⟨hp, hout, -⟩ := onReadAndPubTimer_ok_inv nc spp mult convert recChars buf st out h
  obtain ⟨hch, hsc, hw, hv⟩ := processPackets_range_spec nc spp mult hnc convert buf st hp
  refine ⟨hsc, hout, ?_, ?_, ?_⟩
  · rw [hout]
    simp
  · rw [hsc]
    exact Nat.div_mul_le_self _ _
  · intro hge k hk
    have h1 : mult * spp / nc * nc ≤ mult * spp := Nat.div_mul_le_self _ _
    have h2 : 1 ≤ mult * spp / nc := (Nat.one_le_div_iff hnc).mpr hge
    have h3 : (mult * spp / nc - 1) * nc = mult * spp / nc * nc - nc :=
      Nat.sub_one_mul _ _
    have h4 : nc ≤ mult * spp / nc * nc := Nat.le_mul_of_pos_left nc h2
    rw [hsc, hv (mult * spp / nc - 1) k, if_pos ⟨hk, by omega⟩]

/-- Claim C10: under the fixed configuration (5 channels, 25 samples per
packet, read multiplier 5, one read per cycle), every successful polling cycle
ends with scanNumber 25, equal to the scan-buffer row capacity; every write
performed during extraction lands at a row index at most 24 and a channel
index at most 4; and the final published read uses row scanNumber - 1 = 24,
which is fully populated, never a negative index. -/
theorem C10_fixed_config_bounds {V : Type} (convert : Nat → Nat → V)
    (recChars : Nat) (buf : List Nat) (st : ScanState V) (out : List (Option V))
    (h : onReadAndPubTimer 5 25 5 convert recChars buf = .ok (st, out)) :
    st.scanNumber = 25 ∧
    st.scanNumber =
      SamplesPerPacket / NumChannels * readSizeMultiplier * numReadsPerDisplay ∧
    st.writes = (List.range 125).map (fun u => (u / 5, u % 5)) ∧
    (∀ w ∈ st.writes, w.1 ≤ 24 ∧ w.2 ≤ 4) ∧
    1 ≤ st.scanNumber ∧ st.scanNumber - 1 = 24 ∧
    out = (List.range 5).map (fun k => st.voltages 24 k) ∧
    ∀ k, k < 5 → st.voltages 24 k ≠ none := by
  obtain ⟨hp, hout, -⟩ := onReadAndPubTimer_ok_inv 5 25 5 convert recChars buf st out h
  obtain ⟨hch, hsc, hw, hv⟩ :=
    processPackets_range_spec 5 25 5 (by norm_num) convert buf st hp
  norm_num at hsc hw hv
  refine ⟨hsc, by rw [hsc]; rfl, hw, ?_, by omega, by omega, ?_, ?_⟩
  · intro w hwm
    rw [hw] at hwm
    obtain ⟨u, hu, rfl⟩ := List.mem_map.mp hwm
    rw [List.mem_range] at hu
    exact ⟨by omega, by omega⟩
  · rw [hout]
    simp only [hsc]
  · intro k hk
    rw [hv 24 k, if_pos ⟨hk, by omega⟩]
    exact Option.some_ne_none _

/-- Claim C9: the auto-recovery flag is a local of a single polling cycle:
each cycle starts from the initial state whose flag is off, and on success the
final flag is the fold of the per-packet status transitions from false, where
a status byte 59 is the only thing that sets the flag and a status byte 60 the
only thing that clears it. -/
theorem C9_recovery_flag_per_cycle {V : Type} (nc spp mult : Nat)
    (convert : Nat → Nat → V) (recChars : Nat) (buf : List Nat)
    (st : ScanState V) (out : List (Option V))
    (h : onReadAndPubTimer nc spp mult convert recChars buf = .ok (st, out)) :
    (initState V).autoRecoveryOn = false ∧
    st.autoRecoveryOn = (List.range mult).foldl
      (fun f m => stepRecovery f (statusOf spp buf m)) false ∧
    (∀ f s, s ≠ 59 → s ≠ 60 → stepRecovery f s = f) ∧
    (∀ f, stepRecovery f 59 = true) ∧ (∀ f, stepRecovery f 60 = false) := by
  obtain ⟨hp, -, -⟩ := onReadAndPubTimer_ok_inv nc spp mult convert recChars buf st out h
  refine ⟨rfl, ?_, ?_, fun f => rfl, fun f => rfl⟩
  · exact processPackets_flag nc spp convert buf (List.range mult) (initState V) st hp
  · intro f s h1 h2
    simp [stepRecovery, h1, h2]

/-- Claim C7: on every fatal error of a polling cycle (short transport read,
checksum mismatch, wrong echoed command bytes, or device error code) the cycle
publishes nothing, and the handler passes the device stream state through
untouched on every input: it never stops, restarts, or reconfigures the
stream on the caller's behalf. -/
theorem C7_error_aborts_frame {V : Type} (nc spp mult : Nat)
    (convert : Nat → Nat → V) (dev : DeviceStreamState) (recChars : Nat)
    (buf : List Nat) :
    (onTimerHandler nc spp mult convert dev recChars buf).1 = dev ∧
    (∀ e, (onTimerHandler nc spp mult convert dev recChars buf).2.1 = some e →
      (onTimerHandler nc spp mult convert dev recChars buf).2.2 =
        ([] : List (List (Option V)))) ∧
    (recChars < respSize spp * mult →
      (onTimerHandler nc spp mult convert dev recChars buf).2.1 =
        some (.shortRead (respSize spp * mult) recChars)) := by
  refine ⟨?_, ?_, ?_⟩
  · unfold onTimerHandler
    cases onReadAndPubTimer nc spp mult convert recChars buf with
    | error e => rfl
    | ok p => rfl
  · intro e he
    unfold onTimerHandler at he ⊢
    cases hr : onReadAndPubTimer nc spp mult convert recChars buf with
    | error e2 => rfl
    | ok p =>
      rw [hr] at he
      obtain ⟨st, out⟩ := p
      exact absurd he (by simp)
  · intro hlt
    unfold onTimerHandler
    rw [onReadAndPubTimer_short nc spp mult convert recChars buf hlt]

theorem consumeSamples_from_zero {V : Type} (nc : Nat) (hnc : 0 < nc)
    (convert : Nat → Nat → V) (l : List Nat) (st : ScanState V)
    (hch : st.currChannel = 0) (hsc : st.scanNumber = 0) :
    (consumeSamples nc convert l st).scanNumber = l.length / nc ∧
    (consumeSamples nc convert l st).currChannel = l.length % nc ∧
    (consumeSamples nc convert l st).writes =
      st.writes ++ (List.range l.length).map (fun i => (i / nc, i % nc)) ∧
    ∀ i, i < l.length → (consumeSamples nc convert l st).voltages (i / nc) (i % nc) =
      some (convert (i % nc) (l.getD i 0)) := by
  have hs := consumeSamples_spec nc hnc convert l st 0
    (by rw [hch, Nat.zero_mod]) (by rw [hsc, Nat.zero_div])
  refine ⟨by simpa using hs.2.1, by simpa using hs.1, ?_, ?_⟩
  · rw [hs.2.2.2.2.2.1]
    simp
  · intro i hi
    have hc : i % nc < nc := Nat.mod_lt _ hnc
    have hu : i / nc * nc + i % nc = i := Nat.div_add_mod' i nc
    rw [hs.2.2.2.2.2.2 (i / nc) (i % nc), if_pos ⟨hc, by omega, by omega⟩,
      Nat.sub_zero, hu]

/-- Claim C1: processing one valid 64-byte StreamData packet (status byte 0,
correct checksums) with 5 channels and 25 samples per packet extracts exactly
25 raw 16-bit little-endian samples from consecutive byte pairs starting at
payload offset 12, attributes sample i to channel i mod 5 in round-robin
order, and completes exactly 5 scans, the scan index advancing each time the
channel counter wraps back to 0. -/
theorem C1_single_packet_extraction {V : Type} (convert : Nat → Nat → V)
    (buf : List Nat) (m : Nat)
    (h16M : extendedChecksum16 buf (m * (14 + 25 * 2)) (14 + 25 * 2) / 256 % 256 =
      buf.getD (m * (14 + 25 * 2) + 5) 0)
    (h16L : extendedChecksum16 buf (m * (14 + 25 * 2)) (14 + 25 * 2) % 256 =
      buf.getD (m * (14 + 25 * 2) + 4) 0)
    (h8 : extendedChecksum8 buf (m * (14 + 25 * 2)) = buf.getD (m * (14 + 25 * 2)) 0)
    (hc1 : buf.getD (m * (14 + 25 * 2) + 1) 0 = 0xF9)
    (hc2 : buf.getD (m * (14 + 25 * 2) + 2) 0 = 29)
    (hc3 : buf.getD (m * (14 + 25 * 2) + 3) 0 = 0xC0)
    (hst : buf.getD (m * (14 + 25 * 2) + 11) 0 = 0) :
    ∃ st : ScanState V,
      processPacket 5 25 convert buf m (initState V) = .ok st ∧
      st.scanNumber = 5 ∧ st.currChannel = 0 ∧
      st.writes = (List.range 25).map (fun i => (i / 5, i % 5)) ∧
      st.writes.length = 25 ∧
      ∀ i, i < 25 → st.voltages (i / 5) (i % 5) =
        some (convert (i % 5)
          (voltageBytesAt buf (m * (14 + 25 * 2)) (12 + 2 * i))) := by
  simp only [processPacket]
  rw [if_neg (fun hh => hh h16M), if_neg (fun hh => hh h16L),
    if_neg (fun hh => hh h8),
    if_neg (by push_neg; exact ⟨hc1, by rw [hc2], hc3⟩),
    if_neg (by rw [hst]; decide), if_neg (by rw [hst]; decide),
    if_neg (fun hh => hh hst)]
  refine ⟨_, rfl, ?_, ?_, ?_, ?_, ?_⟩
  all_goals
    have hlen : (packetSamples 25 buf (m * (14 + 25 * 2))).length = 25 := by
      simp [packetSamples]
    have hz := consumeSamples_from_zero 5 (by norm_num) convert
      (packetSamples 25 buf (m * (14 + 25 * 2)))
      { initState V with totalPackets := (initState V).totalPackets + 1 } rfl rfl
  · rw [hz.1, hlen]
  · rw [hz.2.1, hlen]
  · rw [hz.2.2.1, hlen]
    simp [initState]
  · rw [hz.2.2.1, hlen]
    simp [initState]
  · intro i hi
    have hv := hz.2.2.2 i (by rw [hlen]; exact hi)
    rw [hv]
    unfold packetSamples
    rw [getD_map_range _ 25 _ 0 hi]

/-- Claim C4: for every valid stream packet, a status byte of 59 is a
buffer-overflow transition that is not an error, processing of the read
continues and auto-recovery mode turns on; a status byte of 60 is an
auto-recovery report whose dropped-scans count is decoded little-endian from
the bytes at packet offsets 6 and 7 (low + high * 256) and turns recovery
mode off; a status byte of 0 is plain success. -/
theorem C4_status_byte_classification {V : Type} (nc spp : Nat)
    (convert : Nat → Nat → V) (buf : List Nat) (m : Nat) (st : ScanState V)
    (h16M : extendedChecksum16 buf (m * (14 + spp * 2)) (14 + spp * 2) / 256 % 256 =
      buf.getD (m * (14 + spp * 2) + 5) 0)
    (h16L : extendedChecksum16 buf (m * (14 + spp * 2)) (14 + spp * 2) % 256 =
      buf.getD (m * (14 + spp * 2) + 4) 0)
    (h8 : extendedChecksum8 buf (m * (14 + spp * 2)) = buf.getD (m * (14 + spp * 2)) 0)
    (hc1 : buf.getD (m * (14 + spp * 2) + 1) 0 = 0xF9)
    (hc2 : buf.getD (m * (14 + spp * 2) + 2) 0 = 4 + spp)
    (hc3 : buf.getD (m * (14 + spp * 2) + 3) 0 = 0xC0) :
    (statusOf spp buf m = 59 → ∃ st' : ScanState V,
      processPacket nc spp convert buf m st = .ok st' ∧
      st'.autoRecoveryOn = true) ∧
    (statusOf spp buf m = 60 → ∃ st' : ScanState V,
      processPacket nc spp convert buf m st = .ok st' ∧
      st'.autoRecoveryOn = false ∧
      st'.events = st.events ++ [.recoveryReport (st.totalPackets + 1)
        (buf.getD (m * (14 + spp * 2) + 6) 0 +
          buf.getD (m * (14 + spp * 2) + 7) 0 * 256)]) ∧
    (statusOf spp buf m = 0 → ∃ st' : ScanState V,
      processPacket nc spp convert buf m st = .ok st' ∧
      st'.autoRecoveryOn = st.autoRecoveryOn ∧ st'.events = st.events) := by
  unfold statusOf
  refine ⟨fun hst => ?_, fun hst => ?_, fun hst => ?_⟩
  all_goals
    simp only [processPacket]
    rw [if_neg (fun hh => hh h16M), if_neg (fun hh => hh h16L),
      if_neg (fun hh => hh h8), if_neg (by push_neg; exact ⟨hc1, hc2, hc3⟩)]
  · rw [if_pos hst]
    refine ⟨_, rfl, ?_⟩
    rw [(consumeSamples_const nc convert _ _).2.1]
    split
    · assumption
    · rfl
  · rw [if_neg (by rw [hst]; decide), if_pos hst]
    refine ⟨_, rfl, ?_, ?_⟩
    · rw [(consumeSamples_const nc convert _ _).2.1]
    · rw [(consumeSamples_const nc convert _ _).2.2]
  · rw [if_neg (by rw [hst]; decide), if_neg (by rw [hst]; decide),
      if_neg (fun hh => hh hst)]
    refine ⟨_, rfl, ?_, ?_⟩
    · rw [(consumeSamples_const nc convert _ _).2.1]
    · rw [(consumeSamples_const nc convert _ _).2.2]

/-- Claim C8: for every valid stream packet whose status byte is 59, 60 or 0,
the packet's payload samples are extracted and accumulated into the scan
buffer through the same sample loop, from a state that differs from the
incoming one only in status bookkeeping (packet counter, recovery flag,
events); status classification never skips a packet's sample data. -/
theorem C8_samples_extracted_regardless {V : Type} (nc spp : Nat)
    (convert : Nat → Nat → V) (buf : List Nat) (m : Nat) (st : ScanState V)
    (h16M : extendedChecksum16 buf (m * (14 + spp * 2)) (14 + spp * 2) / 256 % 256 =
      buf.getD (m * (14 + spp * 2) + 5) 0)
    (h16L : extendedChecksum16 buf (m * (14 + spp * 2)) (14 + spp * 2) % 256 =
      buf.getD (m * (14 + spp * 2) + 4) 0)
    (h8 : extendedChecksum8 buf (m * (14 + spp * 2)) = buf.getD (m * (14 + spp * 2)) 0)
    (hc1 : buf.getD (m * (14 + spp * 2) + 1) 0 = 0xF9)
    (hc2 : buf.getD (m * (14 + spp * 2) + 2) 0 = 4 + spp)
    (hc3 : buf.getD (m * (14 + spp * 2) + 3) 0 = 0xC0)
    (hst : statusOf spp buf m = 59 ∨ statusOf spp buf m = 60 ∨
      statusOf spp buf m = 0) :
    ∃ st2 : ScanState V,
      processPacket nc spp convert buf m st =
        .ok (consumeSamples nc convert
          (packetSamples spp buf (m * (14 + spp * 2))) st2) ∧
      st2.currChannel = st.currChannel ∧ st2.scanNumber = st.scanNumber ∧
      st2.writes = st.writes ∧ st2.voltages = st.voltages := by
  unfold statusOf at hst
  simp only [processPacket]
  rw [if_neg (fun hh => hh h16M), if_neg (fun hh => hh h16L),
    if_neg (fun hh => hh h8), if_neg (by push_neg; exact ⟨hc1, hc2, hc3⟩)]
  rcases hst with hst | hst | hst
  · rw [if_pos hst]
    split
    · exact ⟨_, rfl, rfl, rfl, rfl, rfl⟩
    · exact ⟨_, rfl, rfl, rfl, rfl, rfl⟩
  · rw [if_neg (by rw [hst]; decide), if_pos hst]
    exact ⟨_, rfl, rfl, rfl, rfl, rfl⟩
  · rw [if_neg (by rw [hst]; decide), if_neg (by rw [hst]; decide),
      if_neg (fun hh => hh hst)]
    exact ⟨_, rfl, rfl, rfl, rfl, rfl⟩

/-- Claim C2 (code bug): when the m-th packet of a multiplied read carries a
nonzero status byte other than 59 or 60, the read is aborted, but the source
reports the code read from recBuff[11] — offset 11 of the whole receive
buffer, the first packet's status byte — instead of the aborting packet's own
status byte at offset m * recBuffSize + 11.  Concretely: packet 0 valid with
status 0 and packet 1 carrying device-error status 5 yield DeviceError 0, not
DeviceError 5. -/
theorem C2_device_error_code_from_first_packet :
    statusOf 25 c2buf 1 = 5 ∧
    c2buf.getD 11 0 = 0 ∧
    onReadAndPubTimer 5 25 5 (fun c r => ((c, r) : Nat × Nat)) 320 c2buf =
      .error (.deviceError 0) ∧
    StreamError.deviceError 0 ≠ .deviceError (statusOf 25 c2buf 1) :=
  ⟨by decide, by decide, rfl, by decide⟩

/-- Claim C3 counterexample: two ConfigIO responses failing for different
reasons — one with a corrupted checksum8 byte, one carrying device error code
7 — produce the same caller-visible return value -1; the validation outcome is
distinguishable only in the logged message, never in what the caller
receives. -/
theorem C3_counterexample :
    ConfigIO_check 12 12 configIORespBad8 = some .badChecksum8 ∧
    ConfigIO_check 12 12 configIORespErr7 = some (.errorcode 7) ∧
    CmdFail.badChecksum8 ≠ CmdFail.errorcode 7 ∧
    ConfigIO_ret 12 12 configIORespBad8 = ConfigIO_ret 12 12 configIORespErr7 :=
  ⟨by decide, by decide, by decide, by decide⟩

/-- Claim C3 amended: every validation failure path of ConfigIO,
StreamConfig, StreamStart and StreamStop returns the same generic failure
code -1 to its caller; the distinct failure kinds are visible only in the log
messages, and the StreamStop device-error path logs nothing at all. -/
theorem C3_amended_generic_failure (sendChars recChars : Nat) (resp : List Nat) :
    ((ConfigIO_check sendChars recChars resp).isSome →
      ConfigIO_ret sendChars recChars resp = -1) ∧
    ((StreamConfig_check sendChars recChars resp).isSome →
      StreamConfig_ret sendChars recChars resp = -1) ∧
    ((StreamStart_check sendChars recChars resp).isSome →
      StreamStart_ret sendChars recChars resp = -1) ∧
    ((StreamStop_check sendChars recChars resp).isSome →
      StreamStop_ret sendChars recChars resp = -1) ∧
    (∀ code, StreamStop_logs (.errorcode code) = false) := by
  refine ⟨?_, ?_, ?_, ?_, fun code => rfl⟩
  · intro h
    unfold ConfigIO_ret
    cases hc : ConfigIO_check sendChars recChars resp with
    | some f => rfl
    | none => rw [hc] at h; simp at h
  · intro h
    unfold StreamConfig_ret
    cases hc : StreamConfig_check sendChars recChars resp with
    | some f => rfl
    | none => rw [hc] at h; simp at h
  · intro h
    unfold StreamStart_ret
    cases hc : StreamStart_check sendChars recChars resp with
    | some f => rfl
    | none => rw [hc] at h; simp at h
  · intro h
    unfold StreamStop_ret
    cases hc : StreamStop_check sendChars recChars resp with
    | some f => rfl
    | none => rw [hc] at h; simp at h

/-- Claim C6: for every ConfigIO response passing the checksum, echoed-command
and error-code checks, the validator further requires the timer/counter config
byte (offset 8) to echo 64 and the EIO-analog mask (offset 11) to echo 255,
each reported as its own applied-configuration failure otherwise; the
FIO-analog mask (offset 10) is accepted when it echoes 255 or the alternate
encoding 0x0F and rejected for any other value. -/
theorem C6_configio_applied_checks (resp : List Nat)
    (h16M : extendedChecksum16 resp 0 12 / 256 % 256 = resp.getD 5 0)
    (h16L : extendedChecksum16 resp 0 12 % 256 = resp.getD 4 0)
    (h8 : extendedChecksum8 resp 0 = resp.getD 0 0)
    (hb1 : resp.getD 1 0 = 0xF8) (hb2 : resp.getD 2 0 = 0x03)
    (hb3 : resp.getD 3 0 = 0x0B) (herr : resp.getD 6 0 = 0) :
    (resp.getD 8 0 ≠ 64 →
      ConfigIO_check 12 12 resp = some .timerCounterConfigNotSet) ∧
    (resp.getD 8 0 = 64 → resp.getD 10 0 ≠ 255 → resp.getD 10 0 ≠ 15 →
      ConfigIO_check 12 12 resp = some .fioAnalogNotSet) ∧
    (resp.getD 8 0 = 64 → (resp.getD 10 0 = 255 ∨ resp.getD 10 0 = 15) →
      resp.getD 11 0 ≠ 255 → ConfigIO_check 12 12 resp = some .eioAnalogNotSet) ∧
    (resp.getD 8 0 = 64 → (resp.getD 10 0 = 255 ∨ resp.getD 10 0 = 15) →
      resp.getD 11 0 = 255 → ConfigIO_check 12 12 resp = none) := by
  refine ⟨fun h1 => ?_, fun h1 h2 h3 => ?_, fun h1 h2 h3 => ?_, fun h1 h2 h3 => ?_⟩
  all_goals
    simp only [ConfigIO_check]
    rw [if_neg (by decide), if_neg (by decide), if_neg (fun hh => hh h16M),
      if_neg (fun hh => hh h16L), if_neg (fun hh => hh h8),
      if_neg (by push_neg; exact ⟨hb1, hb2, hb3⟩), if_neg (fun hh => hh herr)]
  · rw [if_pos h1]
  · rw [if_neg (fun hh => hh h1), if_pos ⟨h2, h3⟩]
  · rw [if_neg (fun hh => hh h1),
      if_neg (fun hh => h2.elim (fun ha => hh.1 ha) (fun hb => hh.2 hb)),
      if_pos h3]
  · rw [if_neg (fun hh => hh h1),
      if_neg (fun hh => h2.elim (fun ha => hh.1 ha) (fun hb => hh.2 hb)),
      if_neg (fun hh => hh h3)]

/-- Witness for C1 at the concrete synthetic packet c1pkt. -/
theorem C1_witness :
    c1pkt.getD (0 * (14 + 25 * 2) + 11) 0 = 0 ∧
    ∃ st : ScanState (Nat × Nat),
      processPacket 5 25 (fun c r => (c, r)) c1pkt 0 (initState (Nat × Nat)) =
        .ok st ∧
      st.scanNumber = 5 ∧ st.currChannel = 0 ∧
      st.writes = (List.range 25).map (fun i => (i / 5, i % 5)) ∧
      st.writes.length = 25 ∧
      ∀ i, i < 25 → st.voltages (i / 5) (i % 5) =
        some (i % 5, voltageBytesAt c1pkt (0 * (14 + 25 * 2)) (12 + 2 * i)) :=
  ⟨by decide,
   C1_single_packet_extraction (fun c r => (c, r)) c1pkt 0 (by decide) (by decide)
     (by decide) (by decide) (by decide) (by decide) (by decide)⟩

/-- Witness for C4 at the concrete overflow and recovery-report packets. -/
theorem C4_witness :
    statusOf 25 pkt59 0 = 59 ∧ statusOf 25 pkt60 0 = 60 ∧
    (∃ st' : ScanState (Nat × Nat),
      processPacket 5 25 (fun c r => (c, r)) pkt59 0 (initState (Nat × Nat)) =
        .ok st' ∧ st'.autoRecoveryOn = true) ∧
    (∃ st' : ScanState (Nat × Nat),
      processPacket 5 25 (fun c r => (c, r)) pkt60 0 (initState (Nat × Nat)) =
        .ok st' ∧ st'.autoRecoveryOn = false ∧
      st'.events = (initState (Nat × Nat)).events ++
        [.recoveryReport ((initState (Nat × Nat)).totalPackets + 1)
          (pkt60.getD (0 * (14 + 25 * 2) + 6) 0 +
            pkt60.getD (0 * (14 + 25 * 2) + 7) 0 * 256)]) :=
  ⟨by decide, by decide,
   (C4_status_byte_classification 5 25 (fun c r => (c, r)) pkt59 0
      (initState (Nat × Nat)) (by decide) (by decide) (by decide) (by decide)
      (by decide) (by decide)).1 (by decide),
   (C4_status_byte_classification 5 25 (fun c r => (c, r)) pkt60 0
      (initState (Nat × Nat)) (by decide) (by decide) (by decide) (by decide)
      (by decide) (by decide)).2.1 (by decide)⟩

/-- Witness for C8 at the concrete overflow packet. -/
theorem C8_witness :
    ∃ st2 : ScanState (Nat × Nat),
      processPacket 5 25 (fun c r => (c, r)) pkt59 0 (initState (Nat × Nat)) =
        .ok (consumeSamples 5 (fun c r => (c, r))
          (packetSamples 25 pkt59 (0 * (14 + 25 * 2))) st2) ∧
      st2.currChannel = (initState (Nat × Nat)).currChannel ∧
      st2.scanNumber = (initState (Nat × Nat)).scanNumber ∧
      st2.writes = (initState (Nat × Nat)).writes ∧
      st2.voltages = (initState (Nat × Nat)).voltages :=
  C8_samples_extracted_regardless 5 25 (fun c r => (c, r)) pkt59 0
    (initState (Nat × Nat)) (by decide) (by decide) (by decide) (by decide)
    (by decide) (by decide) (Or.inl (by decide))

/-- Witness for C5 at a small concrete configuration (2 channels, 3 samples
per packet, so the third sample starts a partial scan that is discarded). -/
theorem C5_witness :
    ∃ (st : ScanState (Nat × Nat)) (out : List (Option (Nat × Nat))),
      onReadAndPubTimer 2 3 1 (fun c r => (c, r)) 20 c5pkt = .ok (st, out) ∧
      st.scanNumber = 1 * 3 / 2 ∧
      out = (List.range 2).map (fun k => st.voltages (st.scanNumber - 1) k) := by
  have hok : cycleOk (onReadAndPubTimer 2 3 1
      (fun c r => ((c, r) : Nat × Nat)) 20 c5pkt) = true := by decide
  rcases hr : onReadAndPubTimer 2 3 1 (fun c r => ((c, r) : Nat × Nat)) 20 c5pkt
    with e | p
  · rw [hr] at hok
    simp [cycleOk] at hok
  · obtain ⟨st, out⟩ := p
    have hc := C5_last_completed_scan 2 3 1 (by norm_num) (fun c r => (c, r))
      20 c5pkt st out hr
    exact ⟨st, out, rfl, hc.1, hc.2.1⟩

/-- Witness for C7 at a concrete short read. -/
theorem C7_witness :
    (onTimerHandler 5 25 5 (fun c r => ((c, r) : Nat × Nat))
      { running := true } 0 []).1 = { running := true } ∧
    (onTimerHandler 5 25 5 (fun c r => ((c, r) : Nat × Nat))
      { running := true } 0 []).2.1 = some (.shortRead (respSize 25 * 5) 0) :=
  ⟨(C7_error_aborts_frame 5 25 5 (fun c r => (c, r)) { running := true } 0 []).1,
   (C7_error_aborts_frame 5 25 5 (fun c r => (c, r)) { running := true } 0 []).2.2
     (by decide)⟩

set_option maxRecDepth 100000 in
/-- Witness for C9 at a concrete read whose packets carry statuses 59, 60,
0, 0, 0: the cycle succeeds and the flag, set by the 59 packet and cleared by
the 60 packet, ends the cycle off. -/
theorem C9_witness :
    ∃ (st : ScanState (Nat × Nat)) (out : List (Option (Nat × Nat))),
      onReadAndPubTimer 5 25 5 (fun c r => (c, r)) 320 c9buf = .ok (st, out) ∧
      st.autoRecoveryOn = (List.range 5).foldl
        (fun f m => stepRecovery f (statusOf 25 c9buf m)) false ∧
      (List.range 5).foldl
        (fun f m => stepRecovery f (statusOf 25 c9buf m)) false = false := by
  have hok : cycleOk (onReadAndPubTimer 5 25 5
      (fun c r => ((c, r) : Nat × Nat)) 320 c9buf) = true := by decide
  rcases hr : onReadAndPubTimer 5 25 5 (fun c r => ((c, r) : Nat × Nat)) 320 c9buf
    with e | p
  · rw [hr] at hok
    simp [cycleOk] at hok
  · obtain ⟨st, out⟩ := p
    have hc := C9_recovery_flag_per_cycle 5 25 5 (fun c r => (c, r)) 320 c9buf
      st out hr
    exact ⟨st, out, rfl, hc.2.1, by decide⟩

set_option maxRecDepth 100000 in
/-- Witness for C10 at a concrete successful cycle of five valid packets. -/
theorem C10_witness :
    ∃ (st : ScanState (Nat × Nat)) (out : List (Option (Nat × Nat))),
      onReadAndPubTimer 5 25 5 (fun c r => (c, r)) 320 c10buf = .ok (st, out) ∧
      st.scanNumber = 25 ∧ st.scanNumber - 1 = 24 := by
  have hok : cycleOk (onReadAndPubTimer 5 25 5
      (fun c r => ((c, r) : Nat × Nat)) 320 c10buf) = true := by decide
  rcases hr : onReadAndPubTimer 5 25 5 (fun c r => ((c, r) : Nat × Nat)) 320 c10buf
    with e | p
  · rw [hr] at hok
    simp [cycleOk] at hok
  · obtain ⟨st, out⟩ := p
    have hc := C10_fixed_config_bounds (fun c r => (c, r)) 320 c10buf st out hr
    exact ⟨st, out, rfl, hc.1, hc.2.2.2.2.2.1⟩

/-- Witness for the amended C3 at concrete failing inputs: a zero-length
write and a corrupted StreamStop response both yield the generic -1. -/
theorem C3_amended_witness :
    (ConfigIO_check 0 0 []).isSome = true ∧ ConfigIO_ret 0 0 [] = -1 ∧
    (StreamStop_check 12 12 configIORespBad8).isSome = true ∧
    StreamStop_ret 12 12 configIORespBad8 = -1 :=
  ⟨by decide, (C3_amended_generic_failure 0 0 []).1 (by decide),
   by decide,
   (C3_amended_generic_failure 12 12 configIORespBad8).2.2.2.1 (by decide)⟩

/-- Witness for C6 at the concrete echoing response. -/
theorem C6_witness :
    configIORespGood.getD 8 0 = 64 ∧ configIORespGood.getD 10 0 = 255 ∧
    configIORespGood.getD 11 0 = 255 ∧
    ConfigIO_check 12 12 configIORespGood = none :=
  ⟨by decide, by decide, by decide,
   (C6_configio_applied_checks configIORespGood (by decide) (by decide)
     (by decide) (by decide) (by decide) (by decide) (by decide)).2.2.2
     (by decide) (Or.inl (by decide)) (by decide)⟩

end LabjackU3
